import Mathlib

/-!
# genPassticket.c — PassTicket generator (zowe-chat, src/passticket/genPassticket.c)

A shallow embedding of `main`: the request it builds for the z/OS service
`IRRSGS64`, the single call, and the two `printf` records it can emit.

Conventions of the embedding
* `uint8_t` / `char` values are `Nat` byte values; `uint32_t` values are `Nat`
  (below `2 ^ 32` when they come from a `uint32_t` object); `int` values are `Int`.
* A pointer is the name of the object it points to (`Ptr`).
* Automatic variables that `main` never initialises (`ticket`, `workArea`,
  `safRc`, `racfRc`, `racfReason`) start with the indeterminate contents given
  by `Stack`.
* `IRRSGS64` is external: it is a parameter of `main`, a function from what it
  is handed to what it leaves behind.
* `stdout` is the list of bytes written; characters of string literals are
  written with their code points.
-/

namespace GenPassticket

/-! ## C library pieces used by `main` -/

/-- Bytes of a C string literal. -/
def lit (s : String) : List Nat := s.toList.map Char.toNat

/-- The C string stored at a `char *`: the bytes before the first NUL. -/
def cstr (mem : List Nat) : List Nat := mem.takeWhile (fun b => b ≠ 0)

/-- `strlen`. -/
def strlen (mem : List Nat) : Nat := (cstr mem).length

/-- Conversion to `uint32_t`. -/
def toU32 (n : Nat) : Nat := n % 2 ^ 32

/-- Conversion of a `uint32_t` to `int` (32-bit two's complement), as in `(int)rc`
and as `printf` reads a `uint32_t` argument under `%d`. -/
def toInt32 (v : Nat) : Int :=
  if v % 2 ^ 32 < 2 ^ 31 then ((v % 2 ^ 32 : Nat) : Int) else ((v % 2 ^ 32 : Nat) : Int) - 2 ^ 32

/-- Decimal digits of a natural number, as bytes. -/
def decimal (n : Nat) : List Nat := (Nat.toDigits 10 n).map Char.toNat

/-- What `%d` writes for an `int`. -/
def fmtInt (i : Int) : List Nat :=
  if i < 0 then '-'.toNat :: decimal i.natAbs else decimal i.natAbs

/-- A variadic argument of `printf`. -/
inductive Arg where
  /-- a `uint32_t` value -/
  | u32 (v : Nat)
  /-- a pointer to bytes in memory -/
  | str (mem : List Nat)

/-- The `printf` conversions the program uses: `%d` and `%s`; every other
character of the format is written as it is. -/
def printf : List Char → List Arg → List Nat
  | [], _ => []
  | '%' :: 'd' :: fmt, Arg.u32 v :: args => fmtInt (toInt32 v) ++ printf fmt args
  | '%' :: 's' :: fmt, Arg.str mem :: args => cstr mem ++ printf fmt args
  | c :: fmt, args => c.toNat :: printf fmt args

/-! ## Data of `main` -/

/-- Objects whose address `main` takes. -/
inductive Ptr where
  | argv1 | argv2 | ticket | subFnCode | sbTicket | sbUser | sbAppl
  deriving DecidableEq, Repr

/-- The `struct strBlock` of the source. -/
structure strBlock where
  length : Nat
  reserved : Nat
  address : Ptr
  deriving DecidableEq, Repr

/-- Indeterminate initial contents of the automatic variables `main` does not
initialise before the call. -/
structure Stack where
  ticket : List Nat
  workArea : List Nat
  safRc : Nat
  racfRc : Nat
  racfReason : Nat
  deriving DecidableEq, Repr

/-- Everything `IRRSGS64` is handed: its twelve by-reference arguments and the
objects reachable from them, as they are at the moment of the call. -/
structure Request where
  nParms : Nat
  workArea : List Nat
  a1 : Nat
  safRc : Nat
  a2 : Nat
  racfRc : Nat
  a3 : Nat
  racfReason : Nat
  optionWord : Nat
  fnCode : Nat
  fnParmCount : Nat
  fnParm : List Ptr
  subFnCode : Nat
  sbTicket : strBlock
  sbUser : strBlock
  sbAppl : strBlock
  ticket : List Nat
  argv1 : List Nat
  argv2 : List Nat
  deriving DecidableEq, Repr

/-- What `main` reads after `IRRSGS64` returns: the returned `rc`, the three
output words, and the contents of the array `ticket`. -/
structure Response where
  rc : Nat
  safRc : Nat
  racfRc : Nat
  racfReason : Nat
  ticket : List Nat
  deriving DecidableEq, Repr

/-- Observable behaviour of one run of `main`. -/
structure Run where
  stdout : List Nat
  calls : List Request
  exit : Int

/-- Bytes at a `uint8_t *` inside a request. -/
def Request.mem (r : Request) : Ptr → List Nat
  | Ptr.argv1 => r.argv1
  | Ptr.argv2 => r.argv2
  | Ptr.ticket => r.ticket
  | _ => []

/-- The bytes a string block designates: the first `length` bytes at `address`. -/
def Request.designated (r : Request) (sb : strBlock) : List Nat :=
  (r.mem sb.address).take sb.length

/-! ## `main` -/

/-- Lines 54-75: load the string blocks and prepare the parameters. -/
def buildRequest (stack : Stack) (argv1 argv2 : List Nat) : Request :=
  let sbUser : strBlock :=
    { length := toU32 (if strlen argv1 < 8 then strlen argv1 else 8)
      reserved := 0
      address := Ptr.argv1 }
  let sbAppl : strBlock :=
    { length := toU32 (if strlen argv2 < 8 then strlen argv2 else 8)
      reserved := 0
      address := Ptr.argv2 }
  let sbTicket : strBlock := { length := 8, reserved := 0, address := Ptr.ticket }
  { nParms := 12
    workArea := stack.workArea
    a1 := 0
    safRc := stack.safRc
    a2 := 0
    racfRc := stack.racfRc
    a3 := 0
    racfReason := stack.racfReason
    optionWord := 0
    fnCode := 3
    fnParmCount := 4
    fnParm := [Ptr.subFnCode, Ptr.sbTicket, Ptr.sbUser, Ptr.sbAppl]
    subFnCode := 1
    sbTicket := sbTicket
    sbUser := sbUser
    sbAppl := sbAppl
    ticket := stack.ticket
    argv1 := argv1
    argv2 := argv2 }

/-- Lines 87-97: the record written after the call. -/
def printResult (resp : Response) : List Nat :=
  if resp.safRc = 0 then
    let ticket := resp.ticket.set 8 0
    printf "\x7b\n \"safRc\": %d,\n \"racfRc\": %d,\n \"racfReason\": %d,\n \"passticket\": \"%s\"\n\x7d\n".toList
      [Arg.u32 resp.safRc, Arg.u32 resp.racfRc, Arg.u32 resp.racfReason, Arg.str ticket]
  else
    printf "\x7b\n \"safRc\": %d,\n \"racfRc\": %d,\n \"racfReason\": %d\n\x7d\n".toList
      [Arg.u32 resp.safRc, Arg.u32 resp.racfRc, Arg.u32 resp.racfReason]

/-- The function `main`; `argc` is the length of `argv`. -/
def main (IRRSGS64 : Request → Response) (stack : Stack) (argv : List (List Nat)) : Run :=
  if argv.length ≠ 3 then
    { stdout := printf "Usage: pass userID application\n".toList []
      calls := []
      exit := 8 }
  else
    let req := buildRequest stack (argv.getD 1 []) (argv.getD 2 [])
    let resp := IRRSGS64 req
    { stdout := printResult resp
      calls := [req]
      exit := toInt32 resp.rc }

/-- The output contains a field with the given key. -/
def hasField (key : String) (out : List Nat) : Prop :=
  lit ("\"" ++ key ++ "\"") <:+: out

instance (key : String) (out : List Nat) : Decidable (hasField key out) := by
  unfold hasField; infer_instance

/-! ## The records of the external interface -/

/-- The success record of the interface description: the three status fields
as decimal integers and the `passticket` field with the given value. -/
def successRecord (safRc racfRc racfReason : Int) (passticket : List Nat) : List Nat :=
  lit "\x7b\n \"safRc\": " ++ fmtInt safRc ++ lit ",\n \"racfRc\": " ++ fmtInt racfRc ++
    lit ",\n \"racfReason\": " ++ fmtInt racfReason ++ lit ",\n \"passticket\": \"" ++
    passticket ++ lit "\"\n\x7d\n"

/-- The failure record of the interface description: the three status fields
only. -/
def failureRecord (safRc racfRc racfReason : Int) : List Nat :=
  lit "\x7b\n \"safRc\": " ++ fmtInt safRc ++ lit ",\n \"racfRc\": " ++ fmtInt racfRc ++
    lit ",\n \"racfReason\": " ++ fmtInt racfReason ++ lit "\n\x7d\n"

/-! ## Concrete inputs -/

/-- Sample indeterminate stack contents: the array `ticket` held nine `?`. -/
def sampleStack : Stack :=
  { ticket := lit "?????????", workArea := List.replicate 1024 255,
    safRc := 7, racfRc := 7, racfReason := 7 }

/-- Other sample stack contents. -/
def sampleStack2 : Stack :=
  { ticket := lit "SECRETXYZ", workArea := List.replicate 1024 1,
    safRc := 0, racfRc := 0, racfReason := 0 }

/-- An authority that grants the ticket `ABCDEFGH`. -/
def grantingAuthority : Request → Response :=
  fun _ => { rc := 0, safRc := 0, racfRc := 0, racfReason := 0, ticket := lit "ABCDEFGH?" }

/-- An authority that refuses with `safRc = 8`, `racfRc = 16`, `racfReason = 4`
and leaves the ticket array as it was. -/
def refusingAuthority : Request → Response :=
  fun req => { rc := 0, safRc := 8, racfRc := 16, racfReason := 4, ticket := req.ticket }

/-- An authority that refuses with the same codes and leaves the user
identifier in the ticket array. -/
def refusingAuthority2 : Request → Response :=
  fun req => { rc := 0, safRc := 8, racfRc := 16, racfReason := 4, ticket := req.argv1 }

/-- An authority that grants a ticket with `racfRc = 16`, `racfReason = 4`. -/
def oddGrantAuthority : Request → Response :=
  fun _ => { rc := 0, safRc := 0, racfRc := 16, racfReason := 4, ticket := lit "ABCDEFGH?" }

/-- An authority that refuses with `safRc = 8` and both other codes zero. -/
def oddRefusalAuthority : Request → Response :=
  fun req => { rc := 0, safRc := 8, racfRc := 0, racfReason := 0, ticket := req.ticket }

/-- An authority whose call fails with `rc = 4` although `safRc = 0`. -/
def failedCallAuthority : Request → Response :=
  fun _ => { rc := 4, safRc := 0, racfRc := 0, racfReason := 0, ticket := lit "ABCDEFGH?" }

/-- An authority whose call returns `rc = 0xFFFFFFFF`. -/
def highRcAuthority : Request → Response :=
  fun _ => { rc := 4294967295, safRc := 0, racfRc := 0, racfReason := 0,
             ticket := lit "ABCDEFGH?" }

/-- An authority that refuses with `racfRc = 0xFFFFFFFF`. -/
def highDetailAuthority : Request → Response :=
  fun req => { rc := 0, safRc := 8, racfRc := 4294967295, racfReason := 4,
               ticket := req.ticket }

/-- An authority that reports success and leaves a NUL as third ticket byte. -/
def nulTicketAuthority : Request → Response :=
  fun _ => { rc := 0, safRc := 0, racfRc := 0, racfReason := 0,
             ticket := [65, 66, 0, 68, 69, 70, 71, 72, 63] }

/-- An authority that reports success and writes nothing to the ticket array. -/
def idleAuthority : Request → Response :=
  fun req => { rc := 0, safRc := 0, racfRc := 0, racfReason := 0, ticket := req.ticket }

/-! ## Auxiliary lemmas -/

theorem toInt32_of_lt {v : Nat} (h : v < 2 ^ 31) : toInt32 v = (v : Int) := by
  have h2 : v % 2 ^ 32 = v := Nat.mod_eq_of_lt (by omega)
  unfold toInt32
  rw [h2, if_pos h]

theorem toInt32_of_ge {v : Nat} (h : 2 ^ 31 ≤ v) (h2 : v < 2 ^ 32) :
    toInt32 v = (v : Int) - 2 ^ 32 := by
  have h3 : v % 2 ^ 32 = v := Nat.mod_eq_of_lt h2
  have h4 : ¬ v < 2 ^ 31 := by omega
  unfold toInt32
  rw [h3, if_neg h4]

theorem fmtInt_natCast (n : Nat) : fmtInt (n : Int) = decimal n := by
  simp [fmtInt]

theorem printResult_of_ne (resp : Response) (h : resp.safRc ≠ 0) :
    printResult resp =
      failureRecord (toInt32 resp.safRc) (toInt32 resp.racfRc) (toInt32 resp.racfReason) := by
  simp [printResult, h, printf, failureRecord, lit]

theorem printResult_of_eq (resp : Response) (h : resp.safRc = 0) :
    printResult resp =
      successRecord 0 (toInt32 resp.racfRc) (toInt32 resp.racfReason)
        (cstr (resp.ticket.set 8 0)) := by
  simp [printResult, h, printf, successRecord, lit, toInt32, fmtInt, decimal]

theorem main_three (IRRSGS64 : Request → Response) (stack : Stack)
    (prog user appl : List Nat) :
    main IRRSGS64 stack [prog, user, appl] =
      { stdout := printResult (IRRSGS64 (buildRequest stack user appl))
        calls := [buildRequest stack user appl]
        exit := toInt32 (IRRSGS64 (buildRequest stack user appl)).rc } := by
  simp [main]

theorem digitChar_range {d : Nat} (h : d < 10) :
    48 ≤ (Nat.digitChar d).toNat ∧ (Nat.digitChar d).toNat ≤ 57 := by
  interval_cases d <;> decide

theorem toDigitsCore_range (fuel : Nat) :
    ∀ (n : Nat) (ds : List Char), (∀ c ∈ ds, 48 ≤ c.toNat ∧ c.toNat ≤ 57) →
      ∀ c ∈ Nat.toDigitsCore 10 fuel n ds, 48 ≤ c.toNat ∧ c.toNat ≤ 57 := by
  induction fuel with
  | zero => intro n ds h c hc; exact h c (by simpa [Nat.toDigitsCore] using hc)
  | succ k ih =>
    intro n ds h c hc
    have hd : ∀ c ∈ Nat.digitChar (n % 10) :: ds, 48 ≤ c.toNat ∧ c.toNat ≤ 57 := by
      intro c hc
      rcases List.mem_cons.1 hc with rfl | hc
      · exact digitChar_range (Nat.mod_lt _ (by decide))
      · exact h c hc
    unfold Nat.toDigitsCore at hc
    dsimp only at hc
    split at hc
    · exact hd c hc
    · exact ih _ _ hd c hc

theorem decimal_range (n : Nat) : ∀ b ∈ decimal n, 48 ≤ b ∧ b ≤ 57 := by
  intro b hb
  obtain ⟨c, hc, rfl⟩ := List.mem_map.1 hb
  exact toDigitsCore_range _ _ _ (by simp) c hc

theorem fmtInt_range (i : Int) : ∀ b ∈ fmtInt i, b = 45 ∨ (48 ≤ b ∧ b ≤ 57) := by
  intro b hb
  unfold fmtInt at hb
  split at hb
  · rcases List.mem_cons.1 hb with rfl | hb
    · left; decide
    · exact Or.inr (decimal_range _ b hb)
  · exact Or.inr (decimal_range _ b hb)

theorem not_mem_fmtInt_p (i : Int) : 112 ∉ fmtInt i := by
  intro h
  rcases fmtInt_range i 112 h with h | h <;> omega

theorem failureRecord_no_passticket (a b c : Int) :
    ¬ hasField "passticket" (failureRecord a b c) := by
  intro h
  have hp : (112 : Nat) ∈ lit ("\"" ++ "passticket" ++ "\"") := by decide
  have hm : (112 : Nat) ∈ failureRecord a b c := h.subset hp
  simp only [failureRecord, List.mem_append] at hm
  have h1 : (112 : Nat) ∉ lit "\x7b\n \"safRc\": " := by decide
  have h2 : (112 : Nat) ∉ lit ",\n \"racfRc\": " := by decide
  have h3 : (112 : Nat) ∉ lit ",\n \"racfReason\": " := by decide
  have h4 : (112 : Nat) ∉ lit "\n\x7d\n" := by decide
  have := not_mem_fmtInt_p a
  have := not_mem_fmtInt_p b
  have := not_mem_fmtInt_p c
  tauto

theorem successRecord_has_passticket (a b c : Int) (t : List Nat) :
    hasField "passticket" (successRecord a b c t) := by
  have hk : lit ("\"" ++ "passticket" ++ "\"") <:+: lit ",\n \"passticket\": \"" := by decide
  obtain ⟨u, v, huv⟩ := hk
  refine ⟨lit "\x7b\n \"safRc\": " ++ fmtInt a ++ lit ",\n \"racfRc\": " ++ fmtInt b ++
    lit ",\n \"racfReason\": " ++ fmtInt c ++ u, v ++ t ++ lit "\"\n\x7d\n", ?_⟩
  simp only [successRecord, ← huv, List.append_assoc]

theorem take_takeWhile_of_le {p : Nat → Bool} :
    ∀ (l : List Nat) (n : Nat), n ≤ (l.takeWhile p).length →
      (l.takeWhile p).take n = l.take n := by
  intro l
  induction l with
  | nil => intro n _; simp
  | cons a t ih =>
    intro n hn
    cases n with
    | zero => simp
    | succ m =>
      by_cases hp : p a = true
      · simp only [List.takeWhile_cons, hp, if_true, List.length_cons, List.take_succ_cons] at hn ⊢
        rw [ih m (by omega)]
      · simp [List.takeWhile_cons, hp] at hn

theorem take_strlen (mem : List Nat) : mem.take (strlen mem) = cstr mem := by
  have h := take_takeWhile_of_le (p := fun b => decide (b ≠ 0)) mem (strlen mem) (le_refl _)
  simpa [strlen, cstr] using h.symm

theorem take_cstr_of_le (mem : List Nat) {n : Nat} (h : n ≤ strlen mem) :
    mem.take n = (cstr mem).take n :=
  (take_takeWhile_of_le (p := fun b => decide (b ≠ 0)) mem n h).symm

theorem sbUser_length (stack : Stack) (user appl : List Nat) :
    (buildRequest stack user appl).sbUser.length = min (strlen user) 8 := by
  simp only [buildRequest, toU32]
  split <;> omega

theorem sbAppl_length (stack : Stack) (user appl : List Nat) :
    (buildRequest stack user appl).sbAppl.length = min (strlen appl) 8 := by
  simp only [buildRequest, toU32]
  split <;> omega

theorem designated_sbUser (stack : Stack) (user appl : List Nat) :
    (buildRequest stack user appl).designated (buildRequest stack user appl).sbUser =
      user.take (min (strlen user) 8) := by
  rw [Request.designated, sbUser_length]
  rfl

theorem designated_sbAppl (stack : Stack) (user appl : List Nat) :
    (buildRequest stack user appl).designated (buildRequest stack user appl).sbAppl =
      appl.take (min (strlen appl) 8) := by
  rw [Request.designated, sbAppl_length]
  rfl

theorem cstr_set_zero :
    ∀ (l : List Nat) (n : Nat), n < l.length → cstr (l.set n 0) = cstr (l.take n) := by
  intro l
  induction l with
  | nil => intro n h; simp at h
  | cons a t ih =>
    intro n h
    cases n with
    | zero => simp [cstr]
    | succ m =>
      have hm : m < t.length := by simpa using h
      have hi := ih m hm
      unfold cstr at hi ⊢
      rw [List.set_cons_succ, List.take_succ_cons, List.takeWhile_cons, List.takeWhile_cons, hi]

theorem cstr_of_no_nul (b : List Nat) (h : ∀ y ∈ b, y ≠ 0) : cstr b = b := by
  unfold cstr
  rw [List.takeWhile_eq_self_iff]
  intro y hy
  simpa using h y hy

theorem cstr_ticket (b : List Nat) (x : Nat) (hb : b.length = 8) :
    cstr ((b ++ [x]).set 8 0) = cstr b := by
  rw [cstr_set_zero _ _ (by simp [hb]), ← hb, List.take_left]

/-! ## The claims -/

/-- C1: for every response returned to a two-argument invocation, the output
contains the `passticket` field if and only if the returned `safRc` is zero;
`racfRc` and `racfReason` play no part in it. -/
theorem C1_passticket_field_iff_safRc_zero (IRRSGS64 : Request → Response) (stack : Stack)
    (prog user appl : List Nat) :
    hasField "passticket" (main IRRSGS64 stack [prog, user, appl]).stdout ↔
      (IRRSGS64 (buildRequest stack user appl)).safRc = 0 := by
  rw [main_three]
  constructor
  · intro h
    by_contra hne
    rw [printResult_of_ne _ hne] at h
    exact failureRecord_no_passticket _ _ _ h
  · intro h
    show hasField "passticket" (printResult _)
    rw [printResult_of_eq _ h]
    exact successRecord_has_passticket _ _ _ _

/-- C1 at the two responses the claim names: `safRc = 0` with non-zero
`racfRc`, `racfReason` gives the field, `safRc = 8` with both zero gives none. -/
theorem C1_passticket_field_iff_safRc_zero_witness :
    hasField "passticket"
      (main oddGrantAuthority sampleStack [lit "pass", lit "IBMUSER", lit "ZOWE"]).stdout ∧
    ¬ hasField "passticket"
      (main oddRefusalAuthority sampleStack [lit "pass", lit "IBMUSER", lit "ZOWE"]).stdout :=
  ⟨(C1_passticket_field_iff_safRc_zero oddGrantAuthority sampleStack (lit "pass") (lit "IBMUSER")
      (lit "ZOWE")).2 rfl,
   fun h => absurd ((C1_passticket_field_iff_safRc_zero oddRefusalAuthority sampleStack
      (lit "pass") (lit "IBMUSER") (lit "ZOWE")).1 h) (by decide)⟩

/-- C2: an identifier longer than 8 bytes, as user or as application, gets a
string block of length 8 designating exactly its first 8 bytes, and the
service is called with it (no rejection). -/
theorem C2_long_identifier_truncated (IRRSGS64 : Request → Response) (stack : Stack)
    (prog other id : List Nat) (h : 8 < strlen id) :
    (∃ req, (main IRRSGS64 stack [prog, id, other]).calls = [req] ∧
        req.sbUser.length = 8 ∧ req.sbUser.address = Ptr.argv1 ∧
        req.designated req.sbUser = (cstr id).take 8 ∧
        (req.designated req.sbUser).length = 8) ∧
    (∃ req, (main IRRSGS64 stack [prog, other, id]).calls = [req] ∧
        req.sbAppl.length = 8 ∧ req.sbAppl.address = Ptr.argv2 ∧
        req.designated req.sbAppl = (cstr id).take 8 ∧
        (req.designated req.sbAppl).length = 8) := by
  have hmin : min (strlen id) 8 = 8 := by omega
  have hlen : ((cstr id).take 8).length = 8 := by
    rw [List.length_take]; unfold strlen at h; omega
  constructor
  · refine ⟨buildRequest stack id other, by rw [main_three], ?_, rfl, ?_, ?_⟩
    · rw [sbUser_length, hmin]
    · rw [designated_sbUser, hmin, take_cstr_of_le id (by omega)]
    · rw [designated_sbUser, hmin, take_cstr_of_le id (by omega), hlen]
  · refine ⟨buildRequest stack other id, by rw [main_three], ?_, rfl, ?_, ?_⟩
    · rw [sbAppl_length, hmin]
    · rw [designated_sbAppl, hmin, take_cstr_of_le id (by omega)]
    · rw [designated_sbAppl, hmin, take_cstr_of_le id (by omega), hlen]

/-- C2 at the ten-byte identifier `IBMUSER123`. -/
theorem C2_long_identifier_truncated_witness :
    8 < strlen (lit "IBMUSER123") ∧
    ((∃ req, (main grantingAuthority sampleStack [lit "pass", lit "IBMUSER123", lit "ZOWE"]).calls
          = [req] ∧
        req.sbUser.length = 8 ∧ req.sbUser.address = Ptr.argv1 ∧
        req.designated req.sbUser = (cstr (lit "IBMUSER123")).take 8 ∧
        (req.designated req.sbUser).length = 8) ∧
    (∃ req, (main grantingAuthority sampleStack [lit "pass", lit "ZOWE", lit "IBMUSER123"]).calls
          = [req] ∧
        req.sbAppl.length = 8 ∧ req.sbAppl.address = Ptr.argv2 ∧
        req.designated req.sbAppl = (cstr (lit "IBMUSER123")).take 8 ∧
        (req.designated req.sbAppl).length = 8)) :=
  ⟨by decide, C2_long_identifier_truncated grantingAuthority sampleStack (lit "pass")
    (lit "ZOWE") (lit "IBMUSER123") (by decide)⟩

/-- C3: an identifier of at most 8 bytes (the empty one included), as user or
as application, gets a string block whose length is its own length and which
designates the whole identifier, and the service is called with it. -/
theorem C3_short_identifier_unchanged (IRRSGS64 : Request → Response) (stack : Stack)
    (prog other id : List Nat) (h : strlen id ≤ 8) :
    (∃ req, (main IRRSGS64 stack [prog, id, other]).calls = [req] ∧
        req.sbUser.length = strlen id ∧ req.sbUser.address = Ptr.argv1 ∧
        req.designated req.sbUser = cstr id) ∧
    (∃ req, (main IRRSGS64 stack [prog, other, id]).calls = [req] ∧
        req.sbAppl.length = strlen id ∧ req.sbAppl.address = Ptr.argv2 ∧
        req.designated req.sbAppl = cstr id) := by
  have hmin : min (strlen id) 8 = strlen id := by omega
  constructor
  · refine ⟨buildRequest stack id other, by rw [main_three], ?_, rfl, ?_⟩
    · rw [sbUser_length, hmin]
    · rw [designated_sbUser, hmin, take_strlen]
  · refine ⟨buildRequest stack other id, by rw [main_three], ?_, rfl, ?_⟩
    · rw [sbAppl_length, hmin]
    · rw [designated_sbAppl, hmin, take_strlen]

/-- C3 at the empty identifier: a zero-length block, and the call is made. -/
theorem C3_short_identifier_unchanged_witness :
    strlen [] ≤ 8 ∧ strlen [] = 0 ∧
    ((∃ req, (main grantingAuthority sampleStack [lit "pass", [], lit "ZOWE"]).calls = [req] ∧
        req.sbUser.length = strlen [] ∧ req.sbUser.address = Ptr.argv1 ∧
        req.designated req.sbUser = cstr []) ∧
    (∃ req, (main grantingAuthority sampleStack [lit "pass", lit "ZOWE", []]).calls = [req] ∧
        req.sbAppl.length = strlen [] ∧ req.sbAppl.address = Ptr.argv2 ∧
        req.designated req.sbAppl = cstr [])) :=
  ⟨by decide, by decide, C3_short_identifier_unchanged grantingAuthority sampleStack (lit "pass")
    (lit "ZOWE") [] (by decide)⟩

/-- C4: with an argument count other than 3 (not exactly two positional
arguments) `main` returns 8, makes no call to `IRRSGS64` and writes only the
usage line, which holds none of the record's fields; with exactly two
positional arguments `IRRSGS64` is called exactly once. -/
theorem C4_usage_error_makes_no_call (IRRSGS64 : Request → Response) (stack : Stack)
    (argv : List (List Nat)) :
    (argv.length ≠ 3 →
      (main IRRSGS64 stack argv).exit = 8 ∧
      (main IRRSGS64 stack argv).calls = [] ∧
      (main IRRSGS64 stack argv).stdout = lit "Usage: pass userID application\n" ∧
      ¬ hasField "safRc" (main IRRSGS64 stack argv).stdout ∧
      ¬ hasField "racfRc" (main IRRSGS64 stack argv).stdout ∧
      ¬ hasField "racfReason" (main IRRSGS64 stack argv).stdout ∧
      ¬ hasField "passticket" (main IRRSGS64 stack argv).stdout) ∧
    (argv.length = 3 → (main IRRSGS64 stack argv).calls.length = 1) := by
  constructor
  · intro h
    have hm : main IRRSGS64 stack argv =
        { stdout := lit "Usage: pass userID application\n", calls := [], exit := 8 } := by
      unfold main
      rw [if_pos h]
      rfl
    rw [hm]
    refine ⟨rfl, rfl, rfl, ?_, ?_, ?_, ?_⟩ <;> decide
  · intro h
    unfold main
    rw [if_neg (by simpa using h)]
    rfl

/-- C4 with one positional argument and with two. -/
theorem C4_usage_error_makes_no_call_witness :
    ((main grantingAuthority sampleStack [lit "pass", lit "IBMUSER"]).exit = 8 ∧
      (main grantingAuthority sampleStack [lit "pass", lit "IBMUSER"]).calls = []) ∧
    (main grantingAuthority sampleStack [lit "pass", lit "IBMUSER", lit "ZOWE"]).calls.length = 1 :=
  ⟨⟨((C4_usage_error_makes_no_call grantingAuthority sampleStack
        [lit "pass", lit "IBMUSER"]).1 (by decide)).1,
    ((C4_usage_error_makes_no_call grantingAuthority sampleStack
        [lit "pass", lit "IBMUSER"]).1 (by decide)).2.1⟩,
   (C4_usage_error_makes_no_call grantingAuthority sampleStack
        [lit "pass", lit "IBMUSER", lit "ZOWE"]).2 (by decide)⟩

/-- C5, as the code has it: for every two-argument invocation and every
response, the value `main` returns is the returned `rc` converted to `int`,
whatever `safRc`, `racfRc`, `racfReason` and the ticket bytes are: it is `rc`
itself when `rc < 2 ^ 31`, and `rc - 2 ^ 32` for a larger `rc`. -/
theorem C5_exit_is_rc_converted_to_int (IRRSGS64 : Request → Response) (stack : Stack)
    (prog user appl : List Nat) :
    (main IRRSGS64 stack [prog, user, appl]).exit =
        toInt32 (IRRSGS64 (buildRequest stack user appl)).rc ∧
    ((IRRSGS64 (buildRequest stack user appl)).rc < 2 ^ 31 →
      (main IRRSGS64 stack [prog, user, appl]).exit =
        ((IRRSGS64 (buildRequest stack user appl)).rc : Int)) ∧
    (2 ^ 31 ≤ (IRRSGS64 (buildRequest stack user appl)).rc →
      (IRRSGS64 (buildRequest stack user appl)).rc < 2 ^ 32 →
      (main IRRSGS64 stack [prog, user, appl]).exit =
        ((IRRSGS64 (buildRequest stack user appl)).rc : Int) - 2 ^ 32) := by
  rw [main_three]
  exact ⟨rfl, fun h => toInt32_of_lt h, fun h h2 => toInt32_of_ge h h2⟩

/-- C5 at the two responses the claim names: `rc = 0` with `safRc = 8` exits 0,
and `rc = 4` with `safRc = 0` exits 4. -/
theorem C5_exit_is_rc_converted_to_int_witness :
    (main refusingAuthority sampleStack [lit "pass", lit "IBMUSER", lit "ZOWE"]).exit = 0 ∧
    (main failedCallAuthority sampleStack [lit "pass", lit "IBMUSER", lit "ZOWE"]).exit = 4 :=
  ⟨(C5_exit_is_rc_converted_to_int refusingAuthority sampleStack (lit "pass") (lit "IBMUSER")
      (lit "ZOWE")).2.1 (by decide),
   (C5_exit_is_rc_converted_to_int failedCallAuthority sampleStack (lit "pass") (lit "IBMUSER")
      (lit "ZOWE")).2.1 (by decide)⟩

/-- C5 as stated fails: when `IRRSGS64` returns `rc = 4294967295`, `main`
returns `-1`, which is not `rc`. -/
theorem C5_exit_is_not_rc_counterexample :
    (highRcAuthority (buildRequest sampleStack (lit "IBMUSER") (lit "ZOWE"))).rc = 4294967295 ∧
    (main highRcAuthority sampleStack [lit "pass", lit "IBMUSER", lit "ZOWE"]).exit = -1 ∧
    (main highRcAuthority sampleStack [lit "pass", lit "IBMUSER", lit "ZOWE"]).exit ≠
      (((highRcAuthority (buildRequest sampleStack (lit "IBMUSER") (lit "ZOWE"))).rc : Nat) : Int) := by
  decide

/-- C6: for every two-argument invocation the request handed to `IRRSGS64`
has the fixed shape: parameter count 12, the three ALETs 0, option word 0,
function code 3, function-parameter count 4, and the parameter list
sub-function code (value 1), ticket block (length 8, reserved 0, pointing to
`ticket`), user block, application block, in this order, both with reserved 0
and pointing to the respective argument. -/
theorem C6_request_has_fixed_shape (IRRSGS64 : Request → Response) (stack : Stack)
    (prog user appl : List Nat) :
    ∃ req, (main IRRSGS64 stack [prog, user, appl]).calls = [req] ∧
      req.nParms = 12 ∧ req.a1 = 0 ∧ req.a2 = 0 ∧ req.a3 = 0 ∧ req.optionWord = 0 ∧
      req.fnCode = 3 ∧ req.fnParmCount = 4 ∧
      req.fnParm = [Ptr.subFnCode, Ptr.sbTicket, Ptr.sbUser, Ptr.sbAppl] ∧
      req.subFnCode = 1 ∧
      req.sbTicket.length = 8 ∧ req.sbTicket.reserved = 0 ∧ req.sbTicket.address = Ptr.ticket ∧
      req.sbUser.reserved = 0 ∧ req.sbUser.address = Ptr.argv1 ∧ req.argv1 = user ∧
      req.sbAppl.reserved = 0 ∧ req.sbAppl.address = Ptr.argv2 ∧ req.argv2 = appl := by
  refine ⟨buildRequest stack user appl, by rw [main_three], ?_⟩
  simp [buildRequest]

/-- C7, as the code has it: for every response with `safRc = 0`, whatever
`racfRc` and `racfReason` are, and every 8 bytes `b` left in the ticket buffer,
the output is the four-field success record (`safRc` 0, then `racfRc` and
`racfReason` as `%d` writes them) whose `passticket` value is the bytes of `b`
before its first zero byte; it is exactly `b` when no byte of `b` is zero. -/
theorem C7_passticket_is_ticket_up_to_nul (IRRSGS64 : Request → Response) (stack : Stack)
    (prog user appl : List Nat) (b : List Nat) (x : Nat)
    (hsaf : (IRRSGS64 (buildRequest stack user appl)).safRc = 0)
    (hticket : (IRRSGS64 (buildRequest stack user appl)).ticket = b ++ [x])
    (hb : b.length = 8) :
    (main IRRSGS64 stack [prog, user, appl]).stdout =
        successRecord 0 (toInt32 (IRRSGS64 (buildRequest stack user appl)).racfRc)
          (toInt32 (IRRSGS64 (buildRequest stack user appl)).racfReason)
          (b.takeWhile (fun y => y ≠ 0)) ∧
    ((∀ y ∈ b, y ≠ 0) →
      (main IRRSGS64 stack [prog, user, appl]).stdout =
        successRecord 0 (toInt32 (IRRSGS64 (buildRequest stack user appl)).racfRc)
          (toInt32 (IRRSGS64 (buildRequest stack user appl)).racfReason) b) := by
  have hout : (main IRRSGS64 stack [prog, user, appl]).stdout =
      successRecord 0 (toInt32 (IRRSGS64 (buildRequest stack user appl)).racfRc)
        (toInt32 (IRRSGS64 (buildRequest stack user appl)).racfReason) (cstr b) := by
    rw [main_three]
    show printResult _ = _
    rw [printResult_of_eq _ hsaf, hticket, cstr_ticket b x hb]
  refine ⟨hout, fun hnz => ?_⟩
  rw [hout, cstr_of_no_nul b hnz]

/-- C7 at the response `safRc = 0`, `racfRc = 0`, `racfReason = 0` with ticket
bytes `ABCDEFGH`. -/
theorem C7_passticket_is_ticket_up_to_nul_witness :
    (main grantingAuthority sampleStack [lit "pass", lit "IBMUSER", lit "ZOWE"]).stdout =
      lit ("\x7b\n \"safRc\": 0,\n \"racfRc\": 0,\n \"racfReason\": 0,\n" ++
        " \"passticket\": \"ABCDEFGH\"\n\x7d\n") :=
  ((C7_passticket_is_ticket_up_to_nul grantingAuthority sampleStack (lit "pass") (lit "IBMUSER")
      (lit "ZOWE") (lit "ABCDEFGH") 63 rfl (by decide) (by decide)).2
    (by decide)).trans (by decide)

/-- C7 as stated fails: with `safRc = 0` and the 8 ticket bytes
`A B NUL D E F G H`, the `passticket` value written is `AB`, not the 8 bytes. -/
theorem C7_nul_cuts_passticket_counterexample :
    (nulTicketAuthority (buildRequest sampleStack (lit "IBMUSER") (lit "ZOWE"))).safRc = 0 ∧
    (nulTicketAuthority (buildRequest sampleStack (lit "IBMUSER") (lit "ZOWE"))).ticket =
      [65, 66, 0, 68, 69, 70, 71, 72] ++ [63] ∧
    (main nulTicketAuthority sampleStack [lit "pass", lit "IBMUSER", lit "ZOWE"]).stdout =
      successRecord 0 0 0 (lit "AB") ∧
    (main nulTicketAuthority sampleStack [lit "pass", lit "IBMUSER", lit "ZOWE"]).stdout ≠
      successRecord 0 0 0 [65, 66, 0, 68, 69, 70, 71, 72] := by
  decide

/-- C8 at the failing input `safRc = 8`, `racfRc = 4294967295`, `racfReason = 4`:
the record written shows `racfRc` as `-1`, not as the decimal rendering of the
unsigned number; at the claim's own example (8, 16, 4) the record is the
expected one. -/
theorem C8_large_code_is_written_negative :
    (main highDetailAuthority sampleStack [lit "pass", lit "IBMUSER", lit "ZOWE"]).stdout =
      lit "\x7b\n \"safRc\": 8,\n \"racfRc\": -1,\n \"racfReason\": 4\n\x7d\n" ∧
    (main highDetailAuthority sampleStack [lit "pass", lit "IBMUSER", lit "ZOWE"]).stdout ≠
      lit "\x7b\n \"safRc\": 8,\n \"racfRc\": 4294967295,\n \"racfReason\": 4\n\x7d\n" ∧
    (main refusingAuthority sampleStack [lit "pass", lit "IBMUSER", lit "ZOWE"]).stdout =
      lit "\x7b\n \"safRc\": 8,\n \"racfRc\": 16,\n \"racfReason\": 4\n\x7d\n" := by
  decide

/-- C9, as the code has it: for every two-argument invocation the 8 bytes the
ticket block designates at the moment of the call are the first 8 bytes the
array `ticket` held before (nothing is written to it before the call); so a
response with `safRc = 0` from an authority that left the array as it was
yields, whatever `racfRc` and `racfReason` it reports, the success record
whose `passticket` is made of those prior bytes, up to their first zero byte. -/
theorem C9_ticket_buffer_holds_prior_contents (IRRSGS64 : Request → Response) (stack : Stack)
    (prog user appl : List Nat) (hlen : stack.ticket.length = 9) :
    (∃ req, (main IRRSGS64 stack [prog, user, appl]).calls = [req] ∧
        req.sbTicket.address = Ptr.ticket ∧ req.sbTicket.length = 8 ∧
        req.ticket = stack.ticket ∧
        req.designated req.sbTicket = stack.ticket.take 8) ∧
    ((IRRSGS64 (buildRequest stack user appl)).safRc = 0 →
      (IRRSGS64 (buildRequest stack user appl)).ticket = stack.ticket →
      (main IRRSGS64 stack [prog, user, appl]).stdout =
        successRecord 0 (toInt32 (IRRSGS64 (buildRequest stack user appl)).racfRc)
          (toInt32 (IRRSGS64 (buildRequest stack user appl)).racfReason)
          (cstr (stack.ticket.take 8))) := by
  constructor
  · exact ⟨buildRequest stack user appl, by rw [main_three], rfl, rfl, rfl, rfl⟩
  · intro hsaf hticket
    rw [main_three]
    show printResult _ = _
    rw [printResult_of_eq _ hsaf, hticket, cstr_set_zero _ _ (by omega)]

/-- C9 at a stack whose `ticket` array held nine `?` bytes, with an authority
that reports `safRc = 0` and writes nothing. -/
theorem C9_ticket_buffer_holds_prior_contents_witness :
    (main idleAuthority sampleStack [lit "pass", lit "IBMUSER", lit "ZOWE"]).stdout =
      lit ("\x7b\n \"safRc\": 0,\n \"racfRc\": 0,\n \"racfReason\": 0,\n" ++
        " \"passticket\": \"????????\"\n\x7d\n") :=
  ((C9_ticket_buffer_holds_prior_contents idleAuthority sampleStack (lit "pass") (lit "IBMUSER")
      (lit "ZOWE") (by decide)).2 rfl rfl).trans (by decide)

/-- C9 as stated fails: on a stack whose `ticket` array held nine `?` bytes,
the 8 bytes the ticket block designates when `IRRSGS64` is called are `?`
bytes, not zero bytes, and an authority that reports `safRc = 0` and writes
nothing yields the passticket `????????`. -/
theorem C9_ticket_buffer_not_zeroed_counterexample :
    (∃ req, (main idleAuthority sampleStack [lit "pass", lit "IBMUSER", lit "ZOWE"]).calls = [req] ∧
      req.designated req.sbTicket = lit "????????" ∧
      req.designated req.sbTicket ≠ List.replicate 8 0) ∧
    (main idleAuthority sampleStack [lit "pass", lit "IBMUSER", lit "ZOWE"]).stdout =
      successRecord 0 0 0 (lit "????????") := by
  refine ⟨⟨buildRequest sampleStack (lit "IBMUSER") (lit "ZOWE"), rfl, ?_, ?_⟩, ?_⟩ <;> decide

/-- C10: two two-argument invocations whose responses agree on `rc`, `safRc`,
`racfRc` and `racfReason` write the same output and return the same value
when `safRc` is not zero, whatever their identifiers, stack contents
(work area, ticket array) and returned ticket bytes are; and when the
returned ticket bytes agree as well, they do so on either path, whatever the
identifiers are. -/
theorem C10_output_depends_on_codes_only (auth1 auth2 : Request → Response)
    (stack1 stack2 : Stack) (prog1 user1 appl1 prog2 user2 appl2 : List Nat)
    (hrc : (auth1 (buildRequest stack1 user1 appl1)).rc =
      (auth2 (buildRequest stack2 user2 appl2)).rc)
    (hsaf : (auth1 (buildRequest stack1 user1 appl1)).safRc =
      (auth2 (buildRequest stack2 user2 appl2)).safRc)
    (hracf : (auth1 (buildRequest stack1 user1 appl1)).racfRc =
      (auth2 (buildRequest stack2 user2 appl2)).racfRc)
    (hreason : (auth1 (buildRequest stack1 user1 appl1)).racfReason =
      (auth2 (buildRequest stack2 user2 appl2)).racfReason) :
    ((auth1 (buildRequest stack1 user1 appl1)).safRc ≠ 0 →
      (main auth1 stack1 [prog1, user1, appl1]).stdout =
        (main auth2 stack2 [prog2, user2, appl2]).stdout ∧
      (main auth1 stack1 [prog1, user1, appl1]).exit =
        (main auth2 stack2 [prog2, user2, appl2]).exit) ∧
    ((auth1 (buildRequest stack1 user1 appl1)).ticket =
        (auth2 (buildRequest stack2 user2 appl2)).ticket →
      (main auth1 stack1 [prog1, user1, appl1]).stdout =
        (main auth2 stack2 [prog2, user2, appl2]).stdout ∧
      (main auth1 stack1 [prog1, user1, appl1]).exit =
        (main auth2 stack2 [prog2, user2, appl2]).exit) := by
  rw [main_three, main_three]
  constructor
  · intro hne
    have hne2 : (auth2 (buildRequest stack2 user2 appl2)).safRc ≠ 0 := hsaf ▸ hne
    refine ⟨?_, by rw [hrc]⟩
    show printResult _ = printResult _
    rw [printResult_of_ne _ hne, printResult_of_ne _ hne2, hsaf, hracf, hreason]
  · intro hticket
    have heq : auth1 (buildRequest stack1 user1 appl1) = auth2 (buildRequest stack2 user2 appl2) := by
      cases h1 : auth1 (buildRequest stack1 user1 appl1)
      cases h2 : auth2 (buildRequest stack2 user2 appl2)
      simp only [h1, h2] at hrc hsaf hracf hreason hticket
      simp [hrc, hsaf, hracf, hreason, hticket]
    rw [heq]
    exact ⟨rfl, rfl⟩

/-- C10 at two runs with different identifiers, different stacks and
different ticket bytes left by the authority, both refused with the same
codes. -/
theorem C10_output_depends_on_codes_only_witness :
    (main refusingAuthority sampleStack [lit "pass", lit "IBMUSER", lit "ZOWE"]).stdout =
      (main refusingAuthority2 sampleStack2 [lit "pass", lit "SECRET", lit "TSO"]).stdout ∧
    (main refusingAuthority sampleStack [lit "pass", lit "IBMUSER", lit "ZOWE"]).exit =
      (main refusingAuthority2 sampleStack2 [lit "pass", lit "SECRET", lit "TSO"]).exit :=
  (C10_output_depends_on_codes_only refusingAuthority refusingAuthority2 sampleStack sampleStack2
    (lit "pass") (lit "IBMUSER") (lit "ZOWE") (lit "pass") (lit "SECRET") (lit "TSO")
    rfl rfl rfl rfl).1 (by decide)

end GenPassticket
